import Mathlib

/-!
Shallow embedding of `src/main.py` (US economic-indicator briefing bot).

Conventions used throughout:
* Python `None` is `Option.none`; JSON string fields are `Option String`.
* Wall-clock input (`datetime.now(KST)`) is modelled by passing a Unix
  timestamp `t : Nat` (seconds since 1970-01-01 00:00:00 UTC); the KST
  conversion (`timezone(timedelta(hours=9))`) adds 9*3600 seconds.
* The network is modelled as a function from a series id to the provider's
  response; `none` is a raised network exception (timeout included), and
  `some (status, body)` is an HTTP reply whose JSON body may lack the
  `observations` field (`body = none`).
* Python `float` values are idealised as exact rationals (`Rat`); `float()`
  parsing is modelled for finite decimal/exponent literals (the `inf`/`nan`
  and underscore/whitespace forms never produced by the FRED API are not
  modelled).
* Logging (`print`) has no observable effect and is not modelled.
-/

set_option maxRecDepth 8000
set_option maxHeartbeats 1000000

namespace USEconBot

/-! ## Clock Gate: `get_korean_time`, `is_business_day`, `should_send_briefing` -/

/-- Seconds of the KST (UTC+9) civil clock for Unix timestamp `t`. -/
def kstSeconds (t : Nat) : Nat := t + 9 * 3600

/-- Days since 1970-01-01 of the KST civil date. -/
def kstDays (t : Nat) : Nat := kstSeconds t / 86400

/-- Python `datetime.weekday()` (Monday = 0 … Sunday = 6) of the KST civil
date; 1970-01-01 was a Thursday (= 3). -/
def kstWeekday (t : Nat) : Nat := (kstDays t + 3) % 7

/-- KST civil hour. -/
def kstHour (t : Nat) : Nat := kstSeconds t % 86400 / 3600

/-- KST civil minute. -/
def kstMinute (t : Nat) : Nat := kstSeconds t % 3600 / 60

/-- KST civil second. -/
def kstSecond (t : Nat) : Nat := kstSeconds t % 60

/-- Gregorian civil date (year, month, day) from days since 1970-01-01. -/
def civilFromDays (z0 : Nat) : Nat × Nat × Nat :=
  let z := z0 + 719468
  let era := z / 146097
  let doe := z % 146097
  let yoe := (doe - doe / 1460 + doe / 36524 - doe / 146096) / 365
  let y := yoe + era * 400
  let doy := doe - (365 * yoe + yoe / 4 - yoe / 100)
  let mp := (5 * doy + 2) / 153
  let d := doy - (153 * mp + 2) / 5 + 1
  let m := if mp < 10 then mp + 3 else mp - 9
  (if m ≤ 2 then y + 1 else y, m, d)

/-- KST civil date of Unix timestamp `t`. -/
def kstDate (t : Nat) : Nat × Nat × Nat := civilFromDays (kstDays t)

/-- `is_business_day`: KST weekday < 5 (Monday–Friday). -/
def is_business_day (t : Nat) : Bool := kstWeekday t < 5

/-- `should_send_briefing`: false on weekends, true exactly at 07:30 KST. -/
def should_send_briefing (t : Nat) : Bool :=
  if !is_business_day t then false
  else if kstHour t == 7 && kstMinute t == 30 then true
  else false

/-! ## `float()` parsing, idealised over `Rat` -/

/-- Numeric value of a digit list read in base 10. -/
def digitsVal (l : List Char) : Nat :=
  l.foldl (fun a c => a * 10 + (c.toNat - 48)) 0

/-- Strip an optional leading sign, returning the sign as a rational. -/
def readSign : List Char → Rat × List Char
  | '-' :: r => (-1, r)
  | '+' :: r => (1, r)
  | r => (1, r)

/-- Parse an optional exponent suffix (`e±ddd`); `some 1` on empty input
means "no exponent". -/
def readExp : List Char → Option Rat
  | [] => some 1
  | 'e' :: r => readExpDigits r
  | 'E' :: r => readExpDigits r
  | _ => none
where
  readExpDigits (r : List Char) : Option Rat :=
    let (es, ds) : Bool × List Char :=
      match r with
      | '-' :: r' => (true, r')
      | '+' :: r' => (false, r')
      | r' => (false, r')
    if ds.isEmpty || !ds.all Char.isDigit then none
    else if es then some (((10 : Rat) ^ digitsVal ds)⁻¹)
    else some ((10 : Rat) ^ digitsVal ds)

/-- Python `float(s)` restricted to finite decimal literals, as an exact
rational: optional sign, digits, optional fraction, optional exponent. -/
def parseFloat (s : String) : Option Rat :=
  let (sgn, cs) := readSign s.toList
  let ip := cs.takeWhile Char.isDigit
  let r1 := cs.dropWhile Char.isDigit
  let (fp, r2) : List Char × List Char :=
    match r1 with
    | '.' :: rest => (rest.takeWhile Char.isDigit, rest.dropWhile Char.isDigit)
    | _ => ([], r1)
  if ip.isEmpty && fp.isEmpty then none
  else
    match readExp r2 with
    | none => none
    | some ex =>
      some (sgn * ((digitsVal ip : Rat) + (digitsVal fp : Rat) / (10 : Rat) ^ fp.length) * ex)

/-! ## Static indicator definitions (`ECONOMIC_INDICATORS`) -/

/-- One entry of the `ECONOMIC_INDICATORS` dict. -/
structure IndicatorInfo where
  name : String
  unit : String
  importance : String
  description : String
deriving DecidableEq, Repr

/-- The `ECONOMIC_INDICATORS` dict as an association list in Python dict
insertion order. -/
def ECONOMIC_INDICATORS : List (String × IndicatorInfo) :=
  [("UNRATE", ⟨"실업률", "%", "critical", "미국 실업률"⟩),
   ("CPIAUCSL", ⟨"CPI (소비자물가지수)", "%", "critical", "전년동월대비 인플레이션율"⟩),
   ("PAYEMS", ⟨"비농업 취업자 수", "천명", "critical", "월간 고용 증가"⟩),
   ("GDPC1", ⟨"GDP", "%", "important", "분기별 경제성장률"⟩),
   ("RRSFS", ⟨"소매판매", "%", "important", "월간 소매판매 증감률"⟩)]

/-! ## Indicator Fetcher: `get_fred_data`, `get_latest_indicators` -/

/-- One FRED observation object (`value` and `date` JSON fields, each
possibly missing). -/
structure Obs where
  value : Option String
  date : Option String
deriving DecidableEq, Repr

/-- Outcome of one HTTP GET: `none` = raised exception (network
failure/timeout); `some (status, body)` = reply with HTTP status and the
optional `observations` field of the JSON body. -/
abbrev FredResponse := Option (Nat × Option (List Obs))

/-- `get_fred_data`: returns the observations list on HTTP 200
(`data.get('observations', [])`), and `[]` on non-200 or exception. -/
def get_fred_data (resp : FredResponse) : List Obs :=
  match resp with
  | none => []
  | some (status, body) => if status == 200 then body.getD [] else []

/-- Per-series snapshot stored in `indicators_data`. -/
structure IndicatorData where
  info : IndicatorInfo
  latest_value : Option String
  latest_date : Option String
  previous_value : Option String
  previous_date : Option String
deriving DecidableEq, Repr

/-- Loop body of `get_latest_indicators` for one series: skip when the
observations list is empty (`if observations:`), else build the snapshot
from `observations[0]` and (when present) `observations[1]`. -/
def fetchEntry (net : String → FredResponse) (p : String × IndicatorInfo) :
    Option (String × IndicatorData) :=
  match get_fred_data (net p.1) with
  | [] => none
  | latest :: rest =>
    some (p.1,
      { info := p.2
        latest_value := latest.value
        latest_date := latest.date
        previous_value := rest.head?.bind Obs.value
        previous_date := rest.head?.bind Obs.date })

/-- `get_latest_indicators`: iterate the static dict in insertion order,
keeping the series whose fetch produced observations. -/
def get_latest_indicators (net : String → FredResponse) :
    List (String × IndicatorData) :=
  ECONOMIC_INDICATORS.filterMap (fetchEntry net)

/-! ## Change Calculator: `calculate_change`, `format_change` -/

/-- Python truthiness of an optional string (`None` and `""` are falsy). -/
def truthy : Option String → Bool
  | none => false
  | some s => !s.isEmpty

/-- `calculate_change`: `None` when either side is falsy or the missing
token `"."` or fails `float()` parse; otherwise the exact difference. -/
def calculate_change (current previous : Option String) : Option Rat :=
  if !truthy current || !truthy previous
      || current == some "." || previous == some "." then none
  else
    match parseFloat (current.getD ""), parseFloat (previous.getD "") with
    | some c, some p => some (c - p)
    | _, _ => none

/-- Left-pad the decimal digits of `n` with `0` to two characters. -/
def pad2 (n : Nat) : String :=
  if n < 10 then "0" ++ toString n else toString n

/-- Left-pad the decimal digits of `n` with `0` to four characters
(`strftime` zero-pads `%Y`). -/
def pad4 (n : Nat) : String :=
  if n < 10 then "000" ++ toString n
  else if n < 100 then "00" ++ toString n
  else if n < 1000 then "0" ++ toString n
  else toString n

/-- Python `f"{q:.2f}"`, idealised on exact rationals: round to two decimal
places, ties to even. -/
def fmt2 (q : Rat) : String :=
  let sign := if q < 0 then "-" else ""
  let scaled : Rat := |q| * 100
  let fl : Nat := scaled.floor.toNat
  let frac : Rat := scaled - (fl : Rat)
  let r : Nat :=
    if frac > 1 / 2 then fl + 1
    else if frac < 1 / 2 then fl
    else if fl % 2 == 0 then fl else fl + 1
  sign ++ toString (r / 100) ++ "." ++ pad2 (r % 100)

/-- `format_change`: emoji plus the delta at two decimals; `N/A` when the
delta is undetermined. -/
def format_change (change : Option Rat) : String :=
  match change with
  | none => "📊 N/A"
  | some c =>
    if c > 0 then "📈 +" ++ fmt2 c
    else if c < 0 then "📉 " ++ fmt2 c
    else "➡️ " ++ fmt2 c

/-! ## Briefing Formatter: `format_economic_briefing` -/

/-- Whether a month has 29 days in February's leap-year case, matching
`datetime`'s Gregorian calendar. -/
def isLeap (y : Nat) : Bool := (y % 4 == 0 && y % 100 != 0) || y % 400 == 0

/-- Days in a month of the proleptic Gregorian calendar. -/
def daysInMonth (y m : Nat) : Nat :=
  if m == 2 then (if isLeap y then 29 else 28)
  else if m == 4 || m == 6 || m == 9 || m == 11 then 30
  else 31

/-- `datetime.strptime(s, '%Y-%m-%d')`: three dash-separated digit groups
(1–4, 1–2, 1–2 digits), a valid year (1–9999), month and day. -/
def parseDate (s : String) : Option (Nat × Nat × Nat) :=
  match s.splitOn "-" with
  | [ys, ms, ds] =>
    if ys.toList.all Char.isDigit && 1 ≤ ys.length && ys.length ≤ 4
        && ms.toList.all Char.isDigit && 1 ≤ ms.length && ms.length ≤ 2
        && ds.toList.all Char.isDigit && 1 ≤ ds.length && ds.length ≤ 2 then
      let y := digitsVal ys.toList
      let m := digitsVal ms.toList
      let d := digitsVal ds.toList
      if 1 ≤ y && 1 ≤ m && m ≤ 12 && 1 ≤ d && d ≤ daysInMonth y m then
        some (y, m, d)
      else none
    else none
  | _ => none

/-- The `if latest_date:` block of the critical loop: `" (%m/%d)"` when the
date is truthy and `strptime` succeeds, `""` otherwise (`except: pass`). -/
def dateSuffix (latest_date : Option String) : String :=
  match latest_date with
  | none => ""
  | some ds =>
    if ds.isEmpty then ""
    else
      match parseDate ds with
      | some (_, m, d) => " (" ++ pad2 m ++ "/" ++ pad2 d ++ ")"
      | none => ""

/-- The `if current and current != '.':` guard shared by both rendering
loops. -/
def renderedCheck (d : IndicatorData) : Bool :=
  truthy d.latest_value && d.latest_value != some "."

/-- Line body appended for a critical-tier snapshot, before the date
suffix. -/
def criticalBase (d : IndicatorData) : String :=
  "\n- <b>" ++ d.info.name ++ "</b>: " ++ d.latest_value.getD "" ++ d.info.unit
    ++ " " ++ format_change (calculate_change d.latest_value d.previous_value)

/-- Text appended by one iteration of the critical-indicators loop. -/
def criticalFragment (d : IndicatorData) : String :=
  if renderedCheck d then criticalBase d ++ dateSuffix d.latest_date else ""

/-- Text appended by one iteration of the important-indicators loop (the
source's second loop never appends a date suffix). -/
def importantFragment (d : IndicatorData) : String :=
  if renderedCheck d then
    "\n- " ++ d.info.name ++ ": " ++ d.latest_value.getD "" ++ d.info.unit
      ++ " " ++ format_change (calculate_change d.latest_value d.previous_value)
  else ""

/-- Opening of the message (title, send date, critical-group header). -/
def briefingHeader (t : Nat) : String :=
  let (y, m, d) := kstDate t
  "🇺🇸 <b>미국 경제지표 브리핑</b>\n📅 " ++ pad4 y ++ "년 " ++ pad2 m ++ "월 "
    ++ pad2 d ++ "일 발송\n\n<b>📊 주요 지표:</b>"

/-- Header of the important-indicators group. -/
def importantHeaderStr : String := "\n\n<b>📈 기타 지표:</b>"

/-- Closing of the message (summary, send time, next-run note). -/
def briefingFooter (t : Nat) : String :=
  "\n\n<b>📊 브리핑 요약:</b>\n최신 미국 경제지표를 확인하세요.\n\n⏰ "
    ++ pad2 (kstHour t) ++ ":" ++ pad2 (kstMinute t)
    ++ " (KST) 발송\n🔄 다음 브리핑: 내일 오전 7:30"

/-- `format_economic_briefing`: partition by importance tier (critical
first), render each group in the input's insertion order, with the
important-group header emitted only when that partition is non-empty. -/
def format_economic_briefing (t : Nat)
    (indicators_data : List (String × IndicatorData)) : String :=
  let critical_indicators :=
    indicators_data.filter (fun p => p.2.info.importance == "critical")
  let important_indicators :=
    indicators_data.filter (fun p => p.2.info.importance == "important")
  briefingHeader t
    ++ String.join (critical_indicators.map (fun p => criticalFragment p.2))
    ++ (if important_indicators.isEmpty then ""
        else importantHeaderStr
          ++ String.join (important_indicators.map (fun p => importantFragment p.2)))
    ++ briefingFooter t

/-! ## Notifier: `send_telegram_message` -/

/-- Outcome of the Telegram POST: `none` = raised exception, `some status`
= HTTP reply. `send_telegram_message` returns true exactly on status
200. -/
def send_telegram_message (resp : Option Nat) : Bool :=
  match resp with
  | some status => status == 200
  | none => false

/-! ## Pipeline: `send_economic_briefing` and the startup block -/

/-- Observable effects of one `send_economic_briefing` call: whether the
Clock Gate passed, the formatted message (if any), the message POSTed to
Telegram (if any), and the reported delivery result. -/
structure CycleTrace where
  gatePassed : Bool
  rendered : Option String
  posted : Option String
  success : Option Bool
deriving DecidableEq, Repr

/-- `send_economic_briefing`: gate check, fetch, empty-data early return,
format, then exactly one delivery attempt. -/
def send_economic_briefing (t : Nat) (net : String → FredResponse)
    (tg : Option Nat) : CycleTrace :=
  if !should_send_briefing t then
    { gatePassed := false, rendered := none, posted := none, success := none }
  else
    let indicators_data := get_latest_indicators net
    if indicators_data.isEmpty then
      { gatePassed := true, rendered := none, posted := none, success := none }
    else
      let briefing_message := format_economic_briefing t indicators_data
      { gatePassed := true
        rendered := some briefing_message
        posted := some briefing_message
        success := some (send_telegram_message tg) }

/-- `send_startup_message`'s text. -/
def send_startup_message (t : Nat) : String :=
  let (y, m, d) := kstDate t
  let weekday_name :=
    (["월", "화", "수", "목", "금", "토", "일"].getD (kstWeekday t) "")
  "🇺🇸 <b>미국 경제지표 브리핑 봇 시작!</b>\n\n📅 " ++ pad4 y ++ "-" ++ pad2 m
    ++ "-" ++ pad2 d ++ " (" ++ weekday_name ++ "요일)\n⏰ " ++ pad2 (kstHour t)
    ++ ":" ++ pad2 (kstMinute t) ++ ":" ++ pad2 (kstSecond t)
    ++ " (KST)\n\n<b>📊 브리핑 스케줄:</b>\n- 매일 오전 7:30 정기 발송\n- 주요 경제지표 자동 수집\n- 평일만 운영 (주말 휴무)\n\n<b>📈 포함 지표:</b>\n- 실업률, CPI, 비농업취업자수\n- GDP, 소매판매 등\n\n다음 브리핑: 내일 오전 7:30 📅"

/-- Observable effects of the module-level startup block. -/
structure StartupTrace where
  startupPosted : Option String
  testCycle : Option CycleTrace
deriving DecidableEq, Repr

/-- The `if FRED_API_KEY and BOT_TOKEN and CHAT_ID:` startup block: when
all three env secrets are truthy, POST the startup message and call
`send_economic_briefing` once; otherwise do neither. -/
def startup_block (fred bot chat : Option String) (t : Nat)
    (net : String → FredResponse) (tg : Option Nat) : StartupTrace :=
  if truthy fred && truthy bot && truthy chat then
    { startupPosted := some (send_startup_message t)
      testCycle := some (send_economic_briefing t net tg) }
  else
    { startupPosted := none, testCycle := none }

/-! ## Substring containment (used to state facts about rendered text) -/

/-- Whether `pat` occurs as a contiguous run inside `s` (structural scan,
so that concrete rendered messages evaluate by reduction). -/
def hasSubList : List Char → List Char → Bool
  | pat, [] => pat.isEmpty
  | pat, c :: rest => pat.isPrefixOf (c :: rest) || hasSubList pat rest

/-- Whether string `pat` occurs as a contiguous substring of `s`. -/
def strHasSub (pat s : String) : Bool := hasSubList pat.toList s.toList

/-! ## Concrete fetch outcomes and snapshots used in the theorems -/

/-- Whether one HTTP fetch attempt failed (raised exception, timeout, or
non-200 status). -/
def httpFailed : FredResponse → Bool
  | none => true
  | some (status, _) => status != 200

/-- A latest observation as the provider returns it. -/
def obsAug : Obs := { value := some "4.3", date := some "2024-08-01" }

/-- A previous observation as the provider returns it. -/
def obsJul : Obs := { value := some "4.1", date := some "2024-07-01" }

/-- Fetch outcome where every series succeeds with two observations. -/
def goodNet : String → FredResponse := fun _ => some (200, some [obsAug, obsJul])

/-- Fetch outcome where UNRATE raises a network exception and CPIAUCSL
returns HTTP 500, while the other three series succeed. -/
def net3 : String → FredResponse := fun sid =>
  if sid = "UNRATE" then none
  else if sid = "CPIAUCSL" then some (500, some [obsAug, obsJul])
  else some (200, some [obsAug, obsJul])

/-- Fetch outcome where every request raises. -/
def failNet : String → FredResponse := fun _ => none

/-- Fetch outcome where UNRATE returns HTTP 200 with an empty observations
list while every other series succeeds. -/
def emptyNet : String → FredResponse := fun sid =>
  if sid = "UNRATE" then some (200, some []) else some (200, some [obsAug, obsJul])

/-- A critical-tier snapshot with a parseable latest value and date. -/
def unrateSnap : IndicatorData :=
  { info := ⟨"실업률", "%", "critical", "미국 실업률"⟩
    latest_value := some "4.3", latest_date := some "2024-08-01"
    previous_value := some "4.1", previous_date := some "2024-07-01" }

/-- A critical-tier snapshot whose latest value is the missing token. -/
def cpiDotSnap : IndicatorData :=
  { info := ⟨"CPI (소비자물가지수)", "%", "critical", "전년동월대비 인플레이션율"⟩
    latest_value := some ".", latest_date := some "2024-08-01"
    previous_value := some "3.2", previous_date := some "2024-07-01" }

/-- An important-tier snapshot with a parseable latest value and a
well-formed latest date. -/
def gdpSnap : IndicatorData :=
  { info := ⟨"GDP", "%", "important", "분기별 경제성장률"⟩
    latest_value := some "3.0", latest_date := some "2024-08-01"
    previous_value := some "2.8", previous_date := some "2024-07-01" }

/-! ## Helper lemmas -/

lemma parseFloat_empty : parseFloat "" = none := rfl

lemma parseFloat_dot : parseFloat "." = none := rfl

lemma truthy_of_parseFloat {s : String} {x : Rat} (h : parseFloat s = some x) :
    truthy (some s) = true := by
  cases he : s.isEmpty
  · simp [truthy, he]
  · rw [(String.isEmpty_iff s).mp he] at h
    rw [parseFloat_empty] at h
    exact absurd h (by simp)

lemma ne_dot_of_parseFloat {s : String} {x : Rat} (h : parseFloat s = some x) :
    s ≠ "." := by
  intro he
  rw [he, parseFloat_dot] at h
  exact absurd h (by simp)

theorem calculate_change_none (current previous : Option String)
    (h : current = none ∨ current = some "." ∨ parseFloat (current.getD "") = none
        ∨ previous = none ∨ previous = some "." ∨ parseFloat (previous.getD "") = none) :
    calculate_change current previous = none := by
  unfold calculate_change
  split
  · rfl
  · rename_i hg
    rcases h with h | h | h | h | h | h
    · exact absurd (by rw [h]; simp [truthy]) hg
    · exact absurd (by rw [h]; simp) hg
    · rw [h]
    · exact absurd (by rw [h]; simp [truthy]) hg
    · exact absurd (by rw [h]; simp) hg
    · rw [h]
      cases parseFloat (current.getD "") <;> rfl

theorem calculate_change_sub (cs ps : String) (x y : Rat)
    (hx : parseFloat cs = some x) (hy : parseFloat ps = some y) :
    calculate_change (some cs) (some ps) = some (x - y) := by
  have hc := truthy_of_parseFloat hx
  have hp := truthy_of_parseFloat hy
  have hcd : (some cs == some (".")) = false := by
    simp [ne_dot_of_parseFloat hx]
  have hpd : (some ps == some (".")) = false := by
    simp [ne_dot_of_parseFloat hy]
  unfold calculate_change
  rw [hc, hp, hcd, hpd]
  simp only [Bool.not_true, Bool.or_false, Bool.false_or, Bool.or_self,
    Option.getD_some, Bool.false_eq_true, if_false]
  rw [hx, hy]

lemma parseFloat_43 : parseFloat "4.3" = some (43 / 10) := by
  rw [show parseFloat "4.3"
      = some (1 * (((4 : Nat) : Rat)
          + ((3 : Nat) : Rat) / (10 : Rat) ^ (['3'] : List Char).length) * 1) from rfl]
  norm_num

lemma parseFloat_41 : parseFloat "4.1" = some (41 / 10) := by
  rw [show parseFloat "4.1"
      = some (1 * (((4 : Nat) : Rat)
          + ((1 : Nat) : Rat) / (10 : Rat) ^ (['1'] : List Char).length) * 1) from rfl]
  norm_num

lemma get_fred_data_of_failed {r : FredResponse} (h : httpFailed r = true) :
    get_fred_data r = [] := by
  match r with
  | none => rfl
  | some (status, body) =>
    simp only [httpFailed, bne_iff_ne, ne_eq, decide_eq_true_eq] at h
    simp [get_fred_data, h]

lemma fetchEntry_some {net : String → FredResponse} {p : String × IndicatorInfo}
    {q : String × IndicatorData} (h : fetchEntry net p = some q) :
    q.1 = p.1 ∧ q.2.info = p.2
      ∧ ∃ o rest, get_fred_data (net p.1) = o :: rest
          ∧ q.2.latest_value = o.value ∧ q.2.latest_date = o.date := by
  unfold fetchEntry at h
  cases hg : get_fred_data (net p.1) with
  | nil => rw [hg] at h; exact absurd h (by simp)
  | cons o rest =>
    rw [hg] at h
    injection h with h
    subst h
    exact ⟨rfl, rfl, o, rest, rfl, rfl, rfl⟩

lemma not_mem_keys {net : String → FredResponse} {sid : String}
    (h : get_fred_data (net sid) = []) :
    sid ∉ (get_latest_indicators net).map Prod.fst := by
  intro hmem
  rcases List.mem_map.mp hmem with ⟨q, hq, hq1⟩
  rcases List.mem_filterMap.mp hq with ⟨p, _, hfe⟩
  obtain ⟨h1, _, o, rest, hg, _⟩ := fetchEntry_some hfe
  have hps : p.1 = sid := by rw [← h1]; exact hq1
  rw [hps, h] at hg
  exact absurd hg (by simp)

lemma mem_keys_of_obs {net : String → FredResponse} {sid : String}
    {info : IndicatorInfo} (hmem : (sid, info) ∈ ECONOMIC_INDICATORS)
    {o : Obs} {rest : List Obs} (hg : get_fred_data (net sid) = o :: rest) :
    sid ∈ (get_latest_indicators net).map Prod.fst := by
  apply List.mem_map.mpr
  refine ⟨(sid,
    { info := info
      latest_value := o.value
      latest_date := o.date
      previous_value := rest.head?.bind Obs.value
      previous_date := rest.head?.bind Obs.date }), ?_, rfl⟩
  apply List.mem_filterMap.mpr
  exact ⟨(sid, info), hmem, by simp [fetchEntry, hg]⟩

lemma filter_filterMap_fetch (net : String → FredResponse) (imp : String)
    (l : List (String × IndicatorInfo)) :
    (l.filterMap (fetchEntry net)).filter (fun p => p.2.info.importance == imp)
      = (l.filter (fun p => p.2.importance == imp)).filterMap (fetchEntry net) := by
  induction l with
  | nil => rfl
  | cons a l ih =>
    rw [List.filterMap_cons, List.filter_cons]
    cases hf : fetchEntry net a with
    | none =>
      by_cases hp : (a.2.importance == imp) = true
      · rw [if_pos hp, List.filterMap_cons, hf, ih]
      · rw [if_neg hp, ih]
    | some q =>
      obtain ⟨-, h2, -⟩ := fetchEntry_some hf
      by_cases hp : (a.2.importance == imp) = true
      · rw [if_pos hp, List.filter_cons, if_pos (by rw [h2]; exact hp),
          List.filterMap_cons, hf, ih]
      · rw [if_neg hp, List.filter_cons, if_neg (by rw [h2]; exact hp), ih]

/-! ## Claim theorems -/

/-- C2: `calculate_change` returns `none` whenever either side is absent,
the missing-value token `"."`, or fails numeric parse; whenever both sides
parse it returns exactly the difference of the parsed numbers; in
particular `calculate_change "4.3" "4.1"` is exactly `0.2 = 1/5`. -/
theorem C2_calculate_change_spec :
    (∀ current previous : Option String,
        (current = none ∨ current = some "." ∨ parseFloat (current.getD "") = none
          ∨ previous = none ∨ previous = some "."
          ∨ parseFloat (previous.getD "") = none) →
        calculate_change current previous = none)
    ∧ (∀ (cs ps : String) (x y : Rat),
        parseFloat cs = some x → parseFloat ps = some y →
        calculate_change (some cs) (some ps) = some (x - y))
    ∧ calculate_change (some "4.3") (some "4.1") = some (1 / 5) :=
  ⟨calculate_change_none, calculate_change_sub, by
    rw [calculate_change_sub "4.3" "4.1" _ _ parseFloat_43 parseFloat_41]
    norm_num⟩

/-- Witness for C2 at concrete inputs: the missing token yields `none`,
and the spec's worked example `4.3 - 4.1 = 0.2` holds exactly. -/
theorem C2_calculate_change_spec_witness :
    calculate_change (some ".") (some "4.1") = none
    ∧ calculate_change (some "4.3") (some "4.1") = some (43 / 10 - 41 / 10) :=
  ⟨C2_calculate_change_spec.1 (some ".") (some "4.1") (Or.inr (Or.inl rfl)),
   C2_calculate_change_spec.2.1 "4.3" "4.1" (43 / 10) (41 / 10)
     parseFloat_43 parseFloat_41⟩

/-- C3: at every timestamp whose KST (UTC+9) weekday is Saturday (5) or
Sunday (6) the Clock Gate returns false regardless of hour and minute; at
every weekday timestamp it returns true iff the KST hour is 7 and the
minute is 30. -/
theorem C3_clock_gate (t : Nat) :
    ((kstWeekday t = 5 ∨ kstWeekday t = 6) → should_send_briefing t = false)
    ∧ (kstWeekday t < 5 →
        (should_send_briefing t = true ↔ kstHour t = 7 ∧ kstMinute t = 30)) := by
  constructor
  · intro h
    have hb : is_business_day t = false := by
      simp only [is_business_day, decide_eq_false_iff_not, not_lt]
      omega
    simp [should_send_briefing, hb]
  · intro h
    have hb : is_business_day t = true := by
      simpa only [is_business_day, decide_eq_true_eq] using h
    simp [should_send_briefing, hb]

/-- Witness for C3: Unix time 172800 is Saturday 09:00 KST (gate closed);
Unix time 81000 is Friday 07:30 KST (gate open). -/
theorem C3_clock_gate_witness :
    should_send_briefing 172800 = false ∧ should_send_briefing 81000 = true :=
  ⟨(C3_clock_gate 172800).1 (Or.inl (by decide)),
   ((C3_clock_gate 81000).2 (by decide)).mpr ⟨by decide, by decide⟩⟩

/-- C7: a series whose HTTP request fails (exception, timeout, non-200) is
omitted from the mapping; a series whose request succeeds with at least one
observation is included; concretely, with UNRATE raising and CPIAUCSL at
HTTP 500, the mapping holds exactly the other three series, in static
order, and the rendered briefing carries lines for exactly those three. -/
theorem C7_partial_failure_tolerance :
    (∀ (net : String → FredResponse) (sid : String),
        httpFailed (net sid) = true →
        sid ∉ (get_latest_indicators net).map Prod.fst)
    ∧ (∀ (net : String → FredResponse) (sid : String) (info : IndicatorInfo)
        (o : Obs) (rest : List Obs),
        (sid, info) ∈ ECONOMIC_INDICATORS →
        net sid = some (200, some (o :: rest)) →
        sid ∈ (get_latest_indicators net).map Prod.fst)
    ∧ (get_latest_indicators net3).map Prod.fst = ["PAYEMS", "GDPC1", "RRSFS"]
    ∧ strHasSub "실업률" (format_economic_briefing 81000 (get_latest_indicators net3))
        = false
    ∧ strHasSub "CPI" (format_economic_briefing 81000 (get_latest_indicators net3))
        = false
    ∧ strHasSub "비농업 취업자 수"
        (format_economic_briefing 81000 (get_latest_indicators net3)) = true
    ∧ strHasSub "GDP" (format_economic_briefing 81000 (get_latest_indicators net3))
        = true
    ∧ strHasSub "소매판매"
        (format_economic_briefing 81000 (get_latest_indicators net3)) = true := by
  refine ⟨?_, ?_, ?_, ?_, ?_, ?_, ?_, ?_⟩
  · intro net sid h
    exact not_mem_keys (get_fred_data_of_failed h)
  · intro net sid info o rest hmem hresp
    exact mem_keys_of_obs hmem (by rw [hresp]; rfl)
  all_goals with_unfolding_all rfl

/-- Witness for C7: under `net3`, failed UNRATE is omitted while
successful PAYEMS is present. -/
theorem C7_partial_failure_tolerance_witness :
    "UNRATE" ∉ (get_latest_indicators net3).map Prod.fst
    ∧ "PAYEMS" ∈ (get_latest_indicators net3).map Prod.fst :=
  ⟨C7_partial_failure_tolerance.1 net3 "UNRATE" (by decide),
   C7_partial_failure_tolerance.2.1 net3 "PAYEMS"
     ⟨"비농업 취업자 수", "천명", "critical", "월간 고용 증가"⟩ obsAug [obsJul]
     (by decide) (by decide)⟩

/-- C8: in a cycle whose gate is open and in which every series fails, the
fetcher returns the empty mapping and the cycle aborts before formatting:
nothing is rendered and no Telegram POST occurs. -/
theorem C8_all_fail_aborts (t : Nat) (net : String → FredResponse)
    (tg : Option Nat) (hgate : should_send_briefing t = true)
    (hfail : ∀ sid, httpFailed (net sid) = true) :
    get_latest_indicators net = []
    ∧ send_economic_briefing t net tg =
        { gatePassed := true, rendered := none, posted := none, success := none } := by
  have hempty : get_latest_indicators net = [] := by
    apply List.filterMap_eq_nil_iff.mpr
    intro p _
    unfold fetchEntry
    rw [get_fred_data_of_failed (hfail p.1)]
  refine ⟨hempty, ?_⟩
  unfold send_economic_briefing
  rw [hgate]
  simp [hempty]

/-- Witness for C8: gate open at Friday 07:30 KST with every request
raising. -/
theorem C8_all_fail_aborts_witness :
    get_latest_indicators failNet = []
    ∧ send_economic_briefing 81000 failNet (some 200) =
        { gatePassed := true, rendered := none, posted := none, success := none } :=
  C8_all_fail_aborts 81000 failNet (some 200) (by decide) (fun _ => rfl)

/-- C9: delivery reports success iff the HTTP status is 200; any other
status or an exception is reported as false; the cycle makes at most one
POST, its control flow is unchanged by the delivery outcome, and the
reported result is exactly the Boolean of the one attempt. -/
theorem C9_delivery_result :
    (∀ status : Option Nat, send_telegram_message status = true ↔ status = some 200)
    ∧ (∀ (t : Nat) (net : String → FredResponse) (tg : Option Nat),
        (send_economic_briefing t net tg).posted
            = (send_economic_briefing t net (some 200)).posted
        ∧ (send_economic_briefing t net tg).rendered
            = (send_economic_briefing t net (some 200)).rendered
        ∧ (send_economic_briefing t net tg).gatePassed
            = (send_economic_briefing t net (some 200)).gatePassed
        ∧ (send_economic_briefing t net tg).success
            = (send_economic_briefing t net tg).posted.map
                (fun _ => send_telegram_message tg)) := by
  constructor
  · intro status
    match status with
    | none => simp [send_telegram_message]
    | some s => simp [send_telegram_message]
  · intro t net tg
    by_cases hgate : (!should_send_briefing t) = true
    · simp [send_economic_briefing, hgate]
    · by_cases hdata : (get_latest_indicators net).isEmpty = true
      · simp [send_economic_briefing, hgate, hdata]
      · simp [send_economic_briefing, hgate, hdata]

/-- Witness for C9: status 200 reports true; status 500 and a raised
exception report false; a failed delivery leaves the POSTed message
unchanged. -/
theorem C9_delivery_result_witness :
    send_telegram_message (some 200) = true
    ∧ send_telegram_message (some 500) = false
    ∧ send_telegram_message none = false
    ∧ (send_economic_briefing 81000 goodNet (some 500)).posted
        = (send_economic_briefing 81000 goodNet (some 200)).posted :=
  ⟨(C9_delivery_result.1 (some 200)).mpr rfl,
   (by
     cases hb : send_telegram_message (some 500)
     · rfl
     · exact absurd ((C9_delivery_result.1 (some 500)).mp hb) (by decide)),
   (by
     cases hb : send_telegram_message none
     · rfl
     · exact absurd ((C9_delivery_result.1 none).mp hb) (by decide)),
   (C9_delivery_result.2 81000 goodNet (some 500)).1⟩

/-- C10: a series answering HTTP 200 with an empty or missing observations
list is omitted from the mapping exactly like a failed series, and every
snapshot present in the mapping is built from a head observation of a
non-empty observations list. -/
theorem C10_empty_observations :
    (∀ (net : String → FredResponse) (sid : String) (body : Option (List Obs)),
        net sid = some (200, body) → body.getD [] = [] →
        sid ∉ (get_latest_indicators net).map Prod.fst)
    ∧ (∀ (net : String → FredResponse) (sid : String) (d : IndicatorData),
        (sid, d) ∈ get_latest_indicators net →
        ∃ o rest, get_fred_data (net sid) = o :: rest
          ∧ d.latest_value = o.value ∧ d.latest_date = o.date) := by
  constructor
  · intro net sid body hresp hempty
    exact not_mem_keys (by rw [hresp]; simpa [get_fred_data] using hempty)
  · intro net sid d hmem
    rcases List.mem_filterMap.mp hmem with ⟨p, -, hfe⟩
    obtain ⟨h1, -, o, rest, hg, hv, hd⟩ := fetchEntry_some hfe
    exact ⟨o, rest, by rw [show sid = p.1 from h1]; exact hg, hv, hd⟩

/-- Witness for C10: under `emptyNet`, the 200-with-empty-list UNRATE is
omitted, and the present CPIAUCSL snapshot carries the head observation. -/
theorem C10_empty_observations_witness :
    "UNRATE" ∉ (get_latest_indicators emptyNet).map Prod.fst
    ∧ ∃ o rest, get_fred_data (emptyNet "CPIAUCSL") = o :: rest
        ∧ (some "4.3" : Option String) = o.value
        ∧ (some "2024-08-01" : Option String) = o.date :=
  ⟨C10_empty_observations.1 emptyNet "UNRATE" (some []) (by decide) rfl,
   C10_empty_observations.2 emptyNet "CPIAUCSL"
     { info := ⟨"CPI (소비자물가지수)", "%", "critical", "전년동월대비 인플레이션율"⟩
       latest_value := some "4.3", latest_date := some "2024-08-01"
       previous_value := some "4.1", previous_date := some "2024-07-01" }
     (by decide)⟩

/-- C5: a snapshot whose latest value is the missing token `"."` emits no
line in either rendering group; concretely, a briefing rendered from a
well-formed UNRATE and a `"."`-valued CPIAUCSL carries the UNRATE line but
no CPI line. -/
theorem C5_missing_token_skipped :
    (∀ d : IndicatorData, d.latest_value = some "." →
        criticalFragment d = "" ∧ importantFragment d = "")
    ∧ strHasSub "CPI"
        (format_economic_briefing 81000
          [("UNRATE", unrateSnap), ("CPIAUCSL", cpiDotSnap)]) = false
    ∧ strHasSub "실업률"
        (format_economic_briefing 81000
          [("UNRATE", unrateSnap), ("CPIAUCSL", cpiDotSnap)]) = true := by
  refine ⟨?_, ?_, ?_⟩
  · intro d h
    constructor
    · unfold criticalFragment renderedCheck
      rw [h]
      simp [truthy]
    · unfold importantFragment renderedCheck
      rw [h]
      simp [truthy]
  all_goals with_unfolding_all rfl

/-- Witness for C5: the `"."`-valued CPI snapshot contributes the empty
string to both groups. -/
theorem C5_missing_token_skipped_witness :
    criticalFragment cpiDotSnap = "" ∧ importantFragment cpiDotSnap = "" :=
  C5_missing_token_skipped.1 cpiDotSnap rfl

/-- C6: for every fetch outcome, the critical partition of the rendered
mapping is exactly the static first three definitions filtered by fetch
success (in static order), the important partition is exactly the static
last two, and the message is assembled with the whole critical group
strictly before the whole important group. -/
theorem C6_render_order (net : String → FredResponse) (t : Nat) :
    (get_latest_indicators net).filter
        (fun p => p.2.info.importance == "critical")
      = (ECONOMIC_INDICATORS.take 3).filterMap (fetchEntry net)
    ∧ (get_latest_indicators net).filter
        (fun p => p.2.info.importance == "important")
      = (ECONOMIC_INDICATORS.drop 3).filterMap (fetchEntry net)
    ∧ format_economic_briefing t (get_latest_indicators net)
      = briefingHeader t
        ++ String.join
            (((ECONOMIC_INDICATORS.take 3).filterMap (fetchEntry net)).map
              (fun p => criticalFragment p.2))
        ++ (if ((ECONOMIC_INDICATORS.drop 3).filterMap (fetchEntry net)).isEmpty
            then ""
            else importantHeaderStr
              ++ String.join
                  (((ECONOMIC_INDICATORS.drop 3).filterMap (fetchEntry net)).map
                    (fun p => importantFragment p.2)))
        ++ briefingFooter t := by
  have hcrit : (get_latest_indicators net).filter
      (fun p => p.2.info.importance == "critical")
      = (ECONOMIC_INDICATORS.take 3).filterMap (fetchEntry net) := by
    rw [get_latest_indicators, filter_filterMap_fetch]
    rfl
  have himp : (get_latest_indicators net).filter
      (fun p => p.2.info.importance == "important")
      = (ECONOMIC_INDICATORS.drop 3).filterMap (fetchEntry net) := by
    rw [get_latest_indicators, filter_filterMap_fetch]
    rfl
  exact ⟨hcrit, himp, by
    simp only [format_economic_briefing, hcrit, himp]⟩

/-- C4 (amended): in the critical group the latest observation date is
appended as a `MM/DD` suffix when it parses, and on parse failure the
suffix is silently omitted while the base line still renders; lines of the
important group are independent of the stored date and never carry a
suffix. -/
theorem C4_date_suffix (d : IndicatorData) :
    (renderedCheck d = true →
        criticalFragment d = criticalBase d ++ dateSuffix d.latest_date)
    ∧ (∀ ds, d.latest_date = some ds → parseDate ds = none →
        criticalFragment d = (if renderedCheck d then criticalBase d else ""))
    ∧ (∀ x, importantFragment { d with latest_date := x } = importantFragment d) := by
  refine ⟨?_, ?_, ?_⟩
  · intro h
    simp [criticalFragment, h]
  · intro ds hds hparse
    have hsf : dateSuffix (some ds) = "" := by
      unfold dateSuffix
      cases he : ds.isEmpty
      · simp [he, hparse]
      · simp [he]
    unfold criticalFragment
    rw [hds, hsf]
    cases renderedCheck d
    · simp
    · simp [String.append_empty]
  · intro x
    rfl

/-- Witness for C4 (amended): the UNRATE snapshot renders with the
`(08/01)` suffix, a snapshot with an unparseable date renders the bare
line, and the GDP important-tier line ignores its stored date. -/
theorem C4_date_suffix_witness :
    criticalFragment unrateSnap = criticalBase unrateSnap ++ " (08/01)"
    ∧ criticalFragment
        { unrateSnap with latest_date := some "bogus" }
      = criticalBase { unrateSnap with latest_date := some "bogus" }
    ∧ importantFragment { gdpSnap with latest_date := some "bogus" }
      = importantFragment gdpSnap := by
  refine ⟨?_, ?_, ?_⟩
  · have h := (C4_date_suffix unrateSnap).1 rfl
    rw [h]
    with_unfolding_all rfl
  · have h := (C4_date_suffix { unrateSnap with latest_date := some "bogus" }).2.1
      "bogus" rfl (by with_unfolding_all rfl)
    rw [h]
    with_unfolding_all rfl
  · exact (C4_date_suffix gdpSnap).2.2 (some "bogus")

/-- C4 is false as stated: the important-tier GDP snapshot renders with
the well-formed latest date `2024-08-01`, yet its rendered line carries no
`08/01` (or any) date suffix, in the fragment and in the full message. -/
theorem C4_date_suffix_counterexample :
    renderedCheck gdpSnap = true
    ∧ gdpSnap.latest_date = some "2024-08-01"
    ∧ parseDate "2024-08-01" = some (2024, 8, 1)
    ∧ importantFragment gdpSnap = "\n- GDP: 3.0% 📈 +0.20"
    ∧ strHasSub "08/01" (importantFragment gdpSnap) = false
    ∧ strHasSub "08/01"
        (format_economic_briefing 81000 [("GDPC1", gdpSnap)]) = false := by
  refine ⟨rfl, rfl, ?_, ?_, ?_, ?_⟩ <;> with_unfolding_all rfl

/-- C1 is contradicted by the code: at process start on a Saturday (Unix
time 172800 = Saturday 09:00 KST) with all three secrets present, every
series fetchable and the messaging provider answering 200, the startup
notification is posted but the immediate briefing cycle is stopped by the
Clock Gate inside `send_economic_briefing`: nothing is rendered and no
briefing POST occurs, contrary to the claimed unconditional
(gate-bypassing) cycle. -/
theorem C1_startup_cycle_gated :
    kstWeekday 172800 = 5
    ∧ (startup_block (some "key") (some "token") (some "chat") 172800 goodNet
        (some 200)).startupPosted = some (send_startup_message 172800)
    ∧ (startup_block (some "key") (some "token") (some "chat") 172800 goodNet
        (some 200)).testCycle
      = some { gatePassed := false, rendered := none, posted := none,
               success := none } := by
  refine ⟨rfl, rfl, ?_⟩
  with_unfolding_all rfl

end USEconBot
